import Mathlib

/-!
# Verification of the consensus core (`src/yb/consensus/consensus.cc`)

Shallow embedding of the consensus core: operation ids, the bootstrap
summary (`ConsensusBootstrapInfo`), replication rounds (`ConsensusRound`),
and the fault-hook machinery of `Consensus` (`SetFaultHooks`,
`GetFaultHooks`, `ExecuteHook`).

Conventions of the embedding:
* C++ `Status` values become the inductive `Status` below; `Status::OK()`
  is `Status.ok`, `STATUS(Aborted, msg)` is `Status.aborted msg`, and any
  other status code a fault hook may return is represented by
  `Status.ioError msg` (the model only needs that such values exist and
  are distinguishable).
* The nullable callback `replicated_cb_` of a `ConsensusRound` is modelled
  by the flag `replicated_cb : Bool` (`true` iff the slot holds a
  callback); the observable effect of invoking the callback is recorded
  as a list of delivered statuses returned next to the new round state.
* The optional bound term (`bound_term_`, with the `kUnboundTerm`
  sentinel declared in the header, which is not part of the sources) is
  modelled as `Option Int`: `none` is the unbound sentinel.
* Methods that are `const` in C++, or that perform no member assignment
  (`CheckBoundTerm`, `ExecuteHook`), are given state-passing wrappers
  returning the (unchanged) state so that frame properties are statable.
-/

namespace YbConsensus

/-- Model of `yb::Status`: the success value, the `Aborted` code with its
message (the only code this file constructs), and a representative other
error code that fault hooks may choose to return. -/
inductive Status where
  | ok : Status
  | aborted (msg : String) : Status
  | ioError (msg : String) : Status
deriving DecidableEq, Repr

/-- Modelled from the spec: operation ids (`OpId`, declared in
`opid_util.h` / the protobuf, not part of the sources) are pairs
`(term, index)`; the term is a leadership epoch and the index a
monotonically increasing sequence number, both non-negative. -/
structure OpId where
  term : Nat
  index : Nat
deriving DecidableEq, Repr

/-- Modelled from the spec: ordering of operation ids is lexicographic on
`(term, index)` (`opid_util`'s comparison is not part of the sources). -/
def OpIdLessThan (a b : OpId) : Prop :=
  a.term < b.term ∨ (a.term = b.term ∧ a.index < b.index)

instance (a b : OpId) : Decidable (OpIdLessThan a b) := by
  unfold OpIdLessThan; infer_instance

/-- Modelled from the spec: non-strict operation-id order. -/
def OpIdLessEq (a b : OpId) : Prop :=
  OpIdLessThan a b ∨ a = b

instance (a b : OpId) : Decidable (OpIdLessEq a b) := by
  unfold OpIdLessEq; infer_instance

/-- Modelled from the spec: the minimum sentinel operation id
(`MinimumOpId()` from `opid_util`, not part of the sources), representing
"empty log": both components at their minimum. -/
def MinimumOpId : OpId := ⟨0, 0⟩

/-- `ConsensusBootstrapInfo`: the bootstrap summary, holding the last
operation id found in the log and the last committed operation id. -/
structure ConsensusBootstrapInfo where
  last_id : OpId
  last_committed_id : OpId
deriving DecidableEq, Repr

/-- The `ConsensusBootstrapInfo` default constructor
(`consensus.cc:48-51`): both ids start at `MinimumOpId()`. -/
def ConsensusBootstrapInfo.init : ConsensusBootstrapInfo :=
  { last_id := MinimumOpId, last_committed_id := MinimumOpId }

/-- Bootstrap summaries produced by this core: the only constructor in
the sources is the default one, and no operation of this core mutates a
summary afterwards (it is read-only from the role's perspective). -/
inductive ConsensusBootstrapInfo.Reachable : ConsensusBootstrapInfo → Prop where
  | constructed : ConsensusBootstrapInfo.Reachable ConsensusBootstrapInfo.init

/-- `ConsensusRound` state: the non-owning back-reference to the owning
`Consensus` (modelled as an identifier), the replicate message payload
(opaque to this core), the optional bound term (`none` = `kUnboundTerm`),
and whether the completion-callback slot is occupied
(`replicated_cb_ != nullptr`). -/
structure ConsensusRound where
  consensus_id : Nat
  replicate_msg : String
  bound_term : Option Int
  replicated_cb : Bool
deriving DecidableEq, Repr

/-- `ConsensusRound::NotifyReplicationFinished` (`consensus.cc:67-70`):
if the callback slot is empty, return (no delivery); otherwise invoke the
callback with `status`.  The source does not assign to any member, so the
round state is returned unchanged; the second component lists the
statuses delivered to the callback by this call. -/
def NotifyReplicationFinished (r : ConsensusRound) (status : Status) :
    ConsensusRound × List Status :=
  if r.replicated_cb = false then (r, [])
  else (r, [status])

/-- Two successive calls of `NotifyReplicationFinished` on the same
round, threading the round state; result is the concatenated list of
statuses delivered to the callback. -/
def notifyTwice (r : ConsensusRound) (s1 s2 : Status) : List Status :=
  let p1 := NotifyReplicationFinished r s1
  let p2 := NotifyReplicationFinished p1.1 s2
  p1.2 ++ p2.2

/-- `ConsensusRound::CheckBoundTerm` (`consensus.cc:72-81`): if a term is
bound and differs from `current_term`, return `Aborted` with the
substituted message; otherwise return OK. -/
def CheckBoundTerm (r : ConsensusRound) (current_term : Int) : Status :=
  match r.bound_term with
  | some t =>
      if t ≠ current_term then
        Status.aborted ("Operation submitted in term " ++ toString t ++
          " cannot be replicated in term " ++ toString current_term)
      else Status.ok
  | none => Status.ok

/-- `ConsensusFaultHooks` (declared in the header; invoked from
`consensus.cc:100-109`): one hook per lifecycle point, each modelled by
the status value it returns. -/
structure ConsensusFaultHooks where
  PreStart : Status
  PostStart : Status
  PreConfigChange : Status
  PostConfigChange : Status
  PreReplicate : Status
  PostReplicate : Status
  PreUpdate : Status
  PostUpdate : Status
  PreShutdown : Status
  PostShutdown : Status
deriving DecidableEq, Repr

/-- The ten lifecycle hook points of `Consensus::HookPoint`. -/
inductive HookPoint where
  | PRE_START
  | POST_START
  | PRE_CONFIG_CHANGE
  | POST_CONFIG_CHANGE
  | PRE_REPLICATE
  | POST_REPLICATE
  | PRE_UPDATE
  | POST_UPDATE
  | PRE_SHUTDOWN
  | POST_SHUTDOWN
deriving DecidableEq, Repr

/-- Modelled from the spec: the underlying integer value of each
`HookPoint` enumerator (the C++ enum is int-backed; values in declaration
order, as the enumeration in the header is not part of the sources). -/
def HookPoint.toCode : HookPoint → Nat
  | .PRE_START => 0
  | .POST_START => 1
  | .PRE_CONFIG_CHANGE => 2
  | .POST_CONFIG_CHANGE => 3
  | .PRE_REPLICATE => 4
  | .POST_REPLICATE => 5
  | .PRE_UPDATE => 6
  | .POST_UPDATE => 7
  | .PRE_SHUTDOWN => 8
  | .POST_SHUTDOWN => 9

/-- `Consensus` state as far as this translation unit mutates it: the
shared fault-hook registry (`fault_hooks_`), nullable. -/
structure Consensus where
  fault_hooks : Option ConsensusFaultHooks
deriving DecidableEq, Repr

/-- `Consensus::SetFaultHooks` (`consensus.cc:89-91`): plain assignment
of the registry pointer. -/
def SetFaultHooks (c : Consensus) (hooks : Option ConsensusFaultHooks) :
    Consensus :=
  { c with fault_hooks := hooks }

/-- `Consensus::GetFaultHooks` (`consensus.cc:93-95`). -/
def GetFaultHooks (c : Consensus) : Option ConsensusFaultHooks :=
  c.fault_hooks

/-- The registry hook a given lifecycle point corresponds to: the value
the member call `fault_hooks_->XXX()` returns. -/
def hookReturn (h : ConsensusFaultHooks) : HookPoint → Status
  | .PRE_START => h.PreStart
  | .POST_START => h.PostStart
  | .PRE_CONFIG_CHANGE => h.PreConfigChange
  | .POST_CONFIG_CHANGE => h.PostConfigChange
  | .PRE_REPLICATE => h.PreReplicate
  | .POST_REPLICATE => h.PostReplicate
  | .PRE_UPDATE => h.PreUpdate
  | .POST_UPDATE => h.PostUpdate
  | .PRE_SHUTDOWN => h.PreShutdown
  | .POST_SHUTDOWN => h.PostShutdown

/-- `Consensus::ExecuteHook` (`consensus.cc:97-114`) restricted to the
well-typed hook points: if a registry is installed, dispatch on `point`
and return the hook's status; otherwise return OK. -/
def ExecuteHook (c : Consensus) (point : HookPoint) : Status :=
  match c.fault_hooks with
  | some h =>
      match point with
      | .PRE_START => h.PreStart
      | .POST_START => h.PostStart
      | .PRE_CONFIG_CHANGE => h.PreConfigChange
      | .POST_CONFIG_CHANGE => h.PostConfigChange
      | .PRE_REPLICATE => h.PreReplicate
      | .POST_REPLICATE => h.PostReplicate
      | .PRE_UPDATE => h.PreUpdate
      | .POST_UPDATE => h.PostUpdate
      | .PRE_SHUTDOWN => h.PreShutdown
      | .POST_SHUTDOWN => h.PostShutdown
  | none => Status.ok

/-- Outcome of the raw hook dispatch: either a returned status, or the
fatal `LOG(FATAL)` branch (process termination). -/
inductive HookDispatch where
  | returns (s : Status)
  | fatal (msg : String)
deriving DecidableEq, Repr

/-- The `switch` of `Consensus::ExecuteHook` (`consensus.cc:99-111`) on
the raw integer value of the enum, including the `default:` branch
`LOG(FATAL) << "Unknown fault hook."`. -/
def dispatchRaw (h : ConsensusFaultHooks) (point : Nat) : HookDispatch :=
  if point = 0 then .returns h.PreStart
  else if point = 1 then .returns h.PostStart
  else if point = 2 then .returns h.PreConfigChange
  else if point = 3 then .returns h.PostConfigChange
  else if point = 4 then .returns h.PreReplicate
  else if point = 5 then .returns h.PostReplicate
  else if point = 6 then .returns h.PreUpdate
  else if point = 7 then .returns h.PostUpdate
  else if point = 8 then .returns h.PreShutdown
  else if point = 9 then .returns h.PostShutdown
  else .fatal "Unknown fault hook."

/-- `Consensus::ExecuteHook` on the raw integer value of the enum
(`consensus.cc:97-114`): no registry means OK without touching the
switch; with a registry the raw switch runs. -/
def ExecuteHookRaw (c : Consensus) (point : Nat) : HookDispatch :=
  match c.fault_hooks with
  | some h => dispatchRaw h point
  | none => .returns Status.ok

/-- State-passing wrapper for `CheckBoundTerm`: the C++ method is
`const` and assigns no member of the round nor of the owning consensus,
so the embedding returns both unchanged together with the status. -/
def CheckBoundTermRun (c : Consensus) (r : ConsensusRound)
    (current_term : Int) : Consensus × ConsensusRound × Status :=
  (c, r, CheckBoundTerm r current_term)

/-- State-passing wrapper for `ExecuteHook`: the method performs no
member assignment (it only reads `fault_hooks_`), so the consensus state
is returned unchanged together with the status. -/
def ExecuteHookRun (c : Consensus) (point : HookPoint) :
    Consensus × Status :=
  (c, ExecuteHook c point)

end YbConsensus

namespace YbConsensus

/-- C1 counterexample: on a round whose callback slot is occupied, two
calls of `NotifyReplicationFinished` deliver the status to the callback
twice, not once — the source never empties the slot, so the second call
is not a no-op. -/
theorem notifyTwice_double_delivery :
    notifyTwice ⟨0, "op", none, true⟩ Status.ok Status.ok =
      [Status.ok, Status.ok] ∧
    notifyTwice ⟨0, "op", none, true⟩ Status.ok Status.ok ≠
      [Status.ok] := by
  constructor <;> decide

/-- C1 (amended): `NotifyReplicationFinished` on a round whose callback
slot is empty is a silent no-op (nothing is ever delivered, by one call
or two); if a callback is registered, each of the two calls delivers its
status to the callback — the call does not empty the slot, so two calls
deliver twice.  Exactly-once delivery is the transport contract, not
enforced by the round. -/
theorem notifyTwice_deliveries (r : ConsensusRound) (s1 s2 : Status) :
    (r.replicated_cb = false → notifyTwice r s1 s2 = []) ∧
    (r.replicated_cb = true → notifyTwice r s1 s2 = [s1, s2]) := by
  constructor <;> intro h <;>
    simp [notifyTwice, NotifyReplicationFinished, h]

/-- C1 witness: concrete instance of the amended statement. -/
theorem notifyTwice_deliveries_witness :
    notifyTwice ⟨0, "op", none, true⟩ Status.ok (Status.ioError "x") =
      [Status.ok, Status.ioError "x"] :=
  (notifyTwice_deliveries ⟨0, "op", none, true⟩ Status.ok
    (Status.ioError "x")).2 rfl

/-- C2: `CheckBoundTerm(current_term)` returns OK iff the round is
unbound or bound exactly to `current_term`; otherwise it returns
`Aborted` whose message carries both the bound term and the current
term. -/
theorem checkBoundTerm_spec (r : ConsensusRound) (current_term : Int) :
    (CheckBoundTerm r current_term = Status.ok ↔
      r.bound_term = none ∨ r.bound_term = some current_term) ∧
    (∀ t, r.bound_term = some t → t ≠ current_term →
      CheckBoundTerm r current_term =
        Status.aborted ("Operation submitted in term " ++ toString t ++
          " cannot be replicated in term " ++ toString current_term)) := by
  constructor
  · cases hb : r.bound_term with
    | none => simp [CheckBoundTerm, hb]
    | some t =>
        by_cases ht : t = current_term
        · subst ht; simp [CheckBoundTerm, hb]
        · simp [CheckBoundTerm, hb, ht]
  · intro t ht hne
    simp [CheckBoundTerm, ht, hne]

/-- C2 witness: a round bound to term 5 checked against term 6 aborts
with the message naming 5 and 6; the bound case succeeding is covered by
instantiating the equivalence. -/
theorem checkBoundTerm_spec_witness :
    CheckBoundTerm ⟨0, "op", some 5, true⟩ 6 =
      Status.aborted
        "Operation submitted in term 5 cannot be replicated in term 6" ∧
    CheckBoundTerm ⟨0, "op", some 5, true⟩ 5 = Status.ok ∧
    CheckBoundTerm ⟨0, "op", none, true⟩ 7 = Status.ok := by
  refine ⟨?_, ?_, ?_⟩
  · exact (checkBoundTerm_spec ⟨0, "op", some 5, true⟩ 6).2 5 rfl
      (by decide)
  · exact (checkBoundTerm_spec ⟨0, "op", some 5, true⟩ 5).1.mpr
      (Or.inr rfl)
  · exact (checkBoundTerm_spec ⟨0, "op", none, true⟩ 7).1.mpr
      (Or.inl rfl)

/-- C3: with no fault-hook registry installed, `ExecuteHook` returns OK
at every hook point and leaves the consensus state unchanged. -/
theorem executeHook_no_registry (c : Consensus)
    (h : c.fault_hooks = none) (point : HookPoint) :
    ExecuteHookRun c point = (c, Status.ok) := by
  simp [ExecuteHookRun, ExecuteHook, h]

/-- C3 witness: concrete instance at `PRE_START` on the hook-free
state. -/
theorem executeHook_no_registry_witness :
    ExecuteHookRun ⟨none⟩ HookPoint.PRE_START = (⟨none⟩, Status.ok) :=
  executeHook_no_registry ⟨none⟩ rfl HookPoint.PRE_START

/-- C4: with a registry installed, `ExecuteHook` returns, verbatim, the
status of exactly the registry hook corresponding to the given point. -/
theorem executeHook_dispatches_registry (h : ConsensusFaultHooks)
    (point : HookPoint) :
    ExecuteHook ⟨some h⟩ point = hookReturn h point := by
  cases point <;> rfl

/-- C5: with a registry installed, a raw point value outside the ten
defined enumerators reaches the fatal `LOG(FATAL)` branch rather than
returning a status, and for every defined enumerator the raw dispatch
returns a status (the fatal branch is unreachable there). -/
theorem executeHookRaw_unknown_fatal (c : Consensus)
    (h : ConsensusFaultHooks) (hc : c.fault_hooks = some h) (code : Nat)
    (hout : ∀ p : HookPoint, HookPoint.toCode p ≠ code) :
    ExecuteHookRaw c code = HookDispatch.fatal "Unknown fault hook." ∧
    ∀ p : HookPoint, ExecuteHookRaw c (HookPoint.toCode p) =
      HookDispatch.returns (ExecuteHook c p) := by
  have h0 := hout .PRE_START
  have h1 := hout .POST_START
  have h2 := hout .PRE_CONFIG_CHANGE
  have h3 := hout .POST_CONFIG_CHANGE
  have h4 := hout .PRE_REPLICATE
  have h5 := hout .POST_REPLICATE
  have h6 := hout .PRE_UPDATE
  have h7 := hout .POST_UPDATE
  have h8 := hout .PRE_SHUTDOWN
  have h9 := hout .POST_SHUTDOWN
  simp only [HookPoint.toCode] at h0 h1 h2 h3 h4 h5 h6 h7 h8 h9
  constructor
  · simp [ExecuteHookRaw, hc, dispatchRaw, Ne.symm h0, Ne.symm h1,
      Ne.symm h2, Ne.symm h3, Ne.symm h4, Ne.symm h5, Ne.symm h6,
      Ne.symm h7, Ne.symm h8, Ne.symm h9]
  · intro p
    cases p <;>
      simp [ExecuteHookRaw, hc, dispatchRaw, ExecuteHook,
        HookPoint.toCode]

/-- C5 witness: code 10 (just past the enumeration) is fatal when a
registry is installed. -/
theorem executeHookRaw_unknown_fatal_witness :
    ExecuteHookRaw
      ⟨some ⟨.ok, .ok, .ok, .ok, .ok, .ok, .ok, .ok, .ok, .ok⟩⟩ 10 =
      HookDispatch.fatal "Unknown fault hook." :=
  (executeHookRaw_unknown_fatal
    ⟨some ⟨.ok, .ok, .ok, .ok, .ok, .ok, .ok, .ok, .ok, .ok⟩⟩
    ⟨.ok, .ok, .ok, .ok, .ok, .ok, .ok, .ok, .ok, .ok⟩ rfl 10
    (by intro p; cases p <;> simp [HookPoint.toCode])).1

/-- C6: the freshly constructed bootstrap summary has both ids equal to
the minimum sentinel operation id. -/
theorem bootstrapInfo_init_minimum :
    ConsensusBootstrapInfo.init.last_id = MinimumOpId ∧
    ConsensusBootstrapInfo.init.last_committed_id = MinimumOpId ∧
    ConsensusBootstrapInfo.init.last_committed_id =
      ConsensusBootstrapInfo.init.last_id :=
  ⟨rfl, rfl, rfl⟩

/-- C7: every bootstrap summary this core can produce satisfies
`last_committed_id <= last_id`; the `Reachable` predicate has a single
case because the core only constructs the summary and never mutates it
afterwards. -/
theorem bootstrapInfo_invariant (s : ConsensusBootstrapInfo)
    (h : ConsensusBootstrapInfo.Reachable s) :
    OpIdLessEq s.last_committed_id s.last_id := by
  cases h
  exact Or.inr rfl

/-- C7 witness: the constructed summary satisfies the invariant. -/
theorem bootstrapInfo_invariant_witness :
    OpIdLessEq ConsensusBootstrapInfo.init.last_committed_id
      ConsensusBootstrapInfo.init.last_id :=
  bootstrapInfo_invariant ConsensusBootstrapInfo.init
    ConsensusBootstrapInfo.Reachable.constructed

/-- C8: operation-id order (lexicographic on `(term, index)`) is
transitive, and the minimum sentinel is strictly below every id whose
term or index exceeds the sentinel's. -/
theorem opId_order_spec (a b c : OpId) :
    (OpIdLessThan a b → OpIdLessThan b c → OpIdLessThan a c) ∧
    ((MinimumOpId.term < a.term ∨ MinimumOpId.index < a.index) →
      OpIdLessThan MinimumOpId a) := by
  constructor
  · intro hab hbc
    unfold OpIdLessThan at *
    omega
  · intro ha
    have ht : MinimumOpId.term = 0 := rfl
    have hi : MinimumOpId.index = 0 := rfl
    unfold OpIdLessThan
    rw [ht, hi] at ha ⊢
    omega

/-- C8 witness: a concrete transitivity chain and a concrete
sentinel comparison. -/
theorem opId_order_spec_witness :
    OpIdLessThan ⟨1, 1⟩ ⟨3, 3⟩ ∧ OpIdLessThan MinimumOpId ⟨0, 5⟩ :=
  ⟨(opId_order_spec ⟨1, 1⟩ ⟨2, 2⟩ ⟨3, 3⟩).1 (by decide) (by decide),
   (opId_order_spec ⟨0, 5⟩ ⟨0, 0⟩ ⟨0, 0⟩).2 (by decide)⟩

/-- C9: `GetFaultHooks` after `SetFaultHooks h` yields `h`, whatever
registry (or none) was installed before: installation is a plain
assignment, last-writer-wins. -/
theorem setFaultHooks_getFaultHooks (c : Consensus)
    (hooks : Option ConsensusFaultHooks) :
    GetFaultHooks (SetFaultHooks c hooks) = hooks := rfl

/-- C10: `CheckBoundTerm` is observation-only: the round (bound term,
stored operation, callback slot, back-reference) and the owning
consensus state are returned unchanged in every case, also when the
computed status is `Aborted`. -/
theorem checkBoundTerm_frame (c : Consensus) (r : ConsensusRound)
    (current_term : Int) :
    (CheckBoundTermRun c r current_term).1 = c ∧
    (CheckBoundTermRun c r current_term).2.1 = r ∧
    (CheckBoundTermRun c r current_term).2.2 =
      CheckBoundTerm r current_term :=
  ⟨rfl, rfl, rfl⟩

end YbConsensus
